import Mathlib

/-!
Verification of the jogger job-worker core: a shallow embedding of the
job package (Job, Manager, OutputStreamer) and the cgroup package
(FSManager), with theorems checking the specification's claims.

Bytes are modelled as `Nat`, byte slices as `List Nat`, Go errors as
`Except String`, and filesystem / process effects as explicit event lists
produced by the embedded functions.
-/

namespace Jogger

/-- The jogv1.Status protobuf enum used by the job package. -/
inductive Status where
  | STATUS_UNSPECIFIED
  | RUNNING
  | COMPLETED
  | STOPPED
  | KILLED
  | FAILED
deriving DecidableEq, Repr

/-- Terminal statuses per the spec's taxonomy. -/
def Status.isTerminal : Status → Bool
  | .COMPLETED | .STOPPED | .KILLED | .FAILED => true
  | _ => false

/-- unix.SIGTERM on Linux. -/
def SIGTERM : Int := 15

/-- unix.SIGKILL on Linux. -/
def SIGKILL : Int := 9

/-- The outcome of `cmd.Wait()` as consumed by `Job.setDoneStatus`:
either no error, an `exec.ExitError` (whose `Sys().(syscall.WaitStatus).Signal()`
yields the signal number, `-1` when the process exited normally with a
non-zero code), or any other error value. -/
inductive WaitResult where
  | ok
  | exitError (sig : Int)
  | otherError
deriving DecidableEq, Repr

/-- Embedding of `Job.setDoneStatus` (part_000 lines 123-144): maps the
wait result to the terminal status stored in the job's status cell. -/
def setDoneStatus : WaitResult → Status
  | .ok => .COMPLETED
  | .exitError sig =>
      if sig = SIGTERM then .STOPPED
      else if sig = SIGKILL then .KILLED
      else .FAILED
  | .otherError => .FAILED

/- ------------------------------------------------------------------
OutputStreamer (part_001)
------------------------------------------------------------------ -/

/-- State of an `OutputStreamer`: the append-only buffer, the
writer-closed flag, and the configured chunk ceiling. The atomic
`length` field of the Go struct always equals `output.length` (it is
stored from `len(o.output)` under the write lock), so it is not a
separate field here. -/
structure OutputStreamer where
  output : List Nat
  writerClosed : Bool
  streamMessageSize : Nat
deriving DecidableEq, Repr

/-- `NewOutputStreamer()` with no options. -/
def NewOutputStreamer : OutputStreamer :=
  { output := [], writerClosed := false, streamMessageSize := 1024 }

/-- The error returned by writes on a closed streamer. -/
def ErrOutputStreamerClosed : String := "output streamer is closed"

/-- Embedding of `OutputStreamer.Write` (part_001 lines 59-68): under the
write lock, rejects the write when the closed flag is set, otherwise
appends and reports the accepted byte count. -/
def OutputStreamer.write (o : OutputStreamer) (b : List Nat) :
    OutputStreamer × Except String Nat :=
  if o.writerClosed then
    (o, .error ErrOutputStreamerClosed)
  else
    ({ o with output := o.output ++ b }, .ok b.length)

/-- Embedding of `OutputStreamer.CloseWriter` (part_001 lines 70-72). -/
def OutputStreamer.closeWriter (o : OutputStreamer) : OutputStreamer :=
  { o with writerClosed := true }

/-- Embedding of `OutputStreamer.Next` (part_001 lines 78-88): returns
`nil` past the end, the tail slice when fewer than `streamMessageSize`
bytes remain, otherwise a full-size slice at `index`. -/
def OutputStreamer.next (o : OutputStreamer) (index : Nat) : List Nat :=
  if o.output.length ≤ index then []
  else if o.output.length < index + o.streamMessageSize then
    o.output.drop index
  else
    (o.output.drop index).take o.streamMessageSize

/-- `Next` uniformly returns the `streamMessageSize`-bounded slice of the
buffer at `index`. -/
theorem OutputStreamer.next_eq (o : OutputStreamer) (index : Nat) :
    o.next index = (o.output.drop index).take o.streamMessageSize := by
  unfold OutputStreamer.next
  by_cases h1 : o.output.length ≤ index
  · simp [h1, List.drop_eq_nil_of_le h1]
  · simp only [h1, if_false]
    by_cases h2 : o.output.length < index + o.streamMessageSize
    · rw [if_pos h2, List.take_of_length_le]
      simpa [List.length_drop] using
        Nat.le_of_lt (Nat.sub_lt_right_of_lt_add (Nat.le_of_not_le h1) (Nat.add_comm index _ ▸ h2))
    · rw [if_neg h2]

/- ------------------------------------------------------------------
Stream trace model (NewStream reader loop, part_001 lines 99-138)

The writer (the stdout/stderr pipe copier), CloseWriter (run by the
reaper after cmd.Wait returns), and one reader goroutine interleave.
Each Write is a single atomic event (its closed-check, append, and
length store run under the write lock) and CloseWriter is the atomic
flip of the closed flag. The reader loop body is NOT one atomic step:
its length load(s) and its writerClosed load are separate atomic
operations, so the model splits them at the point where other
goroutines can interleave — after the reader observes
`index == o.length.Load()` (line 118) and before it loads
`o.writerClosed.Load()` (line 121). Merging the loop's two length
loads (lines 111 and 118) into one event only removes interleavings
(it is the schedule where no writer action falls between them), so
every trace of this model is a real execution of the code.
------------------------------------------------------------------ -/

/-- Program counter of the `NewStream` reader goroutine: `loop` is the
top of the for-loop; `atEnd` is the window between the
`index == o.length.Load()` observation and the `o.writerClosed.Load()`
check; `done` means the reader has closed its channel. -/
inductive ReaderPC where
  | loop
  | atEnd
  | done
deriving DecidableEq, Repr

/-- The local state of one `NewStream` reader goroutine: its cursor,
the chunks sent to its channel so far, and its program counter. -/
structure ReaderState where
  index : Nat
  received : List (List Nat)
  pc : ReaderPC
deriving DecidableEq, Repr

/-- Reader state at the top of the `NewStream` goroutine. -/
def ReaderState.init : ReaderState :=
  { index := 0, received := [], pc := .loop }

/-- One scheduled action in an interleaved execution: one locked
`Write` call, the `CloseWriter` flag flip, one reader loop head
(`readStep`), or the reader's separate closed-flag load (`readFlag`). -/
inductive OMEvent where
  | write (b : List Nat)
  | closeW
  | readStep
  | readFlag
deriving DecidableEq, Repr

/-- One execution of the reader loop head (part_001 lines 109-125, up
to but not including the `writerClosed.Load()`): if the cursor lags the
loaded length, emit `Next index` and advance; if the cursor equals the
loaded length, move to the flag check; schedulable only at `loop`. -/
def readStepFn (o : OutputStreamer) (r : ReaderState) : ReaderState :=
  match r.pc with
  | .loop =>
    if r.index < o.output.length then
      let msg := o.next r.index
      { r with index := r.index + msg.length, received := r.received ++ [msg] }
    else if r.index = o.output.length then
      { r with pc := .atEnd }
    else r
  | _ => r

/-- The reader's `o.writerClosed.Load()` at `atEnd` (part_001 line
121): when the flag is set the channel is closed and the goroutine
returns; otherwise the reader falls through to the tick wait and
re-enters the loop. -/
def readFlagFn (o : OutputStreamer) (r : ReaderState) : ReaderState :=
  match r.pc with
  | .atEnd =>
    if o.writerClosed then { r with pc := .done }
    else { r with pc := .loop }
  | _ => r

/-- Apply one interleaved event to the joint streamer/reader state. -/
def omStep : OutputStreamer × ReaderState → OMEvent → OutputStreamer × ReaderState
  | (o, r), .write b => ((o.write b).1, r)
  | (o, r), .closeW => (o.closeWriter, r)
  | (o, r), .readStep => (o, readStepFn o r)
  | (o, r), .readFlag => (o, readFlagFn o r)

/-- Run a whole interleaving from a given joint state. -/
def omRun (s : OutputStreamer × ReaderState) (evs : List OMEvent) :
    OutputStreamer × ReaderState :=
  evs.foldl omStep s

/-- The payloads of the `Write` calls that the streamer accepts along a
trace (a write is accepted exactly when the closed flag is not yet
set). -/
def acceptedWrites : OutputStreamer × ReaderState → List OMEvent → List (List Nat)
  | _, [] => []
  | s, .write b :: rest =>
      (if s.1.writerClosed then [] else [b]) ++ acceptedWrites (omStep s (.write b)) rest
  | s, e :: rest => acceptedWrites (omStep s e) rest

/-- Initial joint state: a fresh streamer with the given chunk ceiling
and a reader at offset 0. -/
def omInit (size : Nat) : OutputStreamer × ReaderState :=
  ({ output := [], writerClosed := false, streamMessageSize := size }, ReaderState.init)

/-- C1: refuted — the reader ends its stream on two separate atomic
loads: it first observes `index == length`, and only afterwards loads
`writerClosed`. A write accepted between those two loads, followed by
`CloseWriter`, is never delivered: in the trace below the reader emits
"A" (byte 65) and observes index = length; the writer then appends "B"
(byte 66), which the streamer accepts because the closed flag is still
clear; the reaper closes the writer; the reader now loads the flag,
closes its channel by case (ii), and "B" is missing — the received
concatenation is a strict prefix of the accepted concatenation. -/
theorem stream_misses_final_write :
    (omRun (omInit 1024)
      [.write [65], .readStep, .readStep, .write [66], .closeW, .readFlag]).2.pc
        = .done ∧
    (omRun (omInit 1024)
      [.write [65], .readStep, .readStep, .write [66], .closeW, .readFlag]).2.received.flatten
        = [65] ∧
    (acceptedWrites (omInit 1024)
      [.write [65], .readStep, .readStep, .write [66], .closeW, .readFlag]).flatten
        = [65, 66] ∧
    ([65] : List Nat) ≠ [65, 66] := by
  refine ⟨rfl, rfl, rfl, by decide⟩


/-- C2: the reaper's terminal-status derivation — a nil wait error
yields COMPLETED, an exit error whose wait status carries SIGTERM yields
STOPPED, SIGKILL yields KILLED, any other signal value (including the
`-1` reported for a plain non-zero exit) yields FAILED, a non-ExitError
anomaly yields FAILED; and the derivation is total, always recording a
terminal status and never an error. -/
theorem setDoneStatus_taxonomy :
    setDoneStatus .ok = .COMPLETED ∧
    setDoneStatus (.exitError SIGTERM) = .STOPPED ∧
    setDoneStatus (.exitError SIGKILL) = .KILLED ∧
    (∀ s : Int, s ≠ SIGTERM → s ≠ SIGKILL → setDoneStatus (.exitError s) = .FAILED) ∧
    setDoneStatus .otherError = .FAILED ∧
    (∀ w : WaitResult, (setDoneStatus w).isTerminal = true) := by
  refine ⟨rfl, rfl, rfl, ?_, rfl, ?_⟩
  · intro s h1 h2
    simp [setDoneStatus, h1, h2]
  · intro w
    cases w with
    | ok => rfl
    | exitError s =>
      simp only [setDoneStatus]
      split_ifs <;> rfl
    | otherError => rfl

theorem setDoneStatus_taxonomy_witness :
    setDoneStatus (.exitError 11) = .FAILED :=
  setDoneStatus_taxonomy.2.2.2.1 11 (by decide) (by decide)

/-- C8: a write on an open streamer appends exactly the payload, grows
the observable length by the payload length, and returns the payload
length with no error; a write after `CloseWriter` returns the
writer-closed error and leaves the buffer and length unchanged. -/
theorem write_contract (o : OutputStreamer) (b : List Nat) :
    (o.writerClosed = false →
      (o.write b).1.output = o.output ++ b ∧
      (o.write b).1.output.length = o.output.length + b.length ∧
      (o.write b).2 = .ok b.length) ∧
    ((o.closeWriter).write b).1.output = o.output ∧
    ((o.closeWriter).write b).1.output.length = o.output.length ∧
    ((o.closeWriter).write b).2 = .error ErrOutputStreamerClosed := by
  constructor
  · intro h
    simp [OutputStreamer.write, h]
  · simp [OutputStreamer.write, OutputStreamer.closeWriter]

theorem write_contract_witness :
    (NewOutputStreamer.write [5]).1.output = [] ++ [5] ∧
    (NewOutputStreamer.write [5]).1.output.length = ([] : List Nat).length + 1 ∧
    (NewOutputStreamer.write [5]).2 = .ok 1 :=
  (write_contract NewOutputStreamer [5]).1 rfl

/- ------------------------------------------------------------------
CGroup Filesystem Manager (lib/cgroup/cgroup.go)

Filesystem operations are modelled as an effect trace; an `FSOracle`
resolves each fallible OS call. A write that the OS rejects leaves no
durable `writeFile` effect.
------------------------------------------------------------------ -/

namespace cgroup

def gb : Nat := 1024 * 1024 * 1024

def defaultCgroupRootPath : String := "/sys/fs/cgroup"

def defaultServerCGroupName : String := "jogger"

def defaultTargetMaxMemoryBytes : Nat := 4 * gb

/-- `filepath.Join` restricted to the clean relative components this
package joins. -/
def filepathJoin (a b : String) : String := a ++ "/" ++ b

/-- The `CGroup` handle: the open directory (path and descriptor) and
the leaf's `cgroup.events` path. -/
structure CGroup where
  dirPath : String
  dirFD : Nat
  cgEventsFile : String
deriving DecidableEq, Repr

/-- `FSManager` state (cgroup.go lines 15-30); the mutex and context are
concurrency plumbing with no algorithmic content. -/
structure FSManager where
  controllers : List String
  rootPath : String
  memoryTargetBytes : Nat
  serverCGroupName : String
  groups : List (String × CGroup)
deriving DecidableEq, Repr

/-- Durable filesystem effects the manager can perform. -/
inductive FSEffect where
  | mkdirDir (path : String)
  | openPath (path : String)
  | writeFile (path : String) (data : String)
  | removePath (path : String)
  | closeDir (path : String)
  | readEventsFile (path : String)
deriving DecidableEq, Repr

/-- Resolves the fallible OS calls of one AddGroup/RemoveGroup run. -/
structure FSOracle where
  mkdirOk : Bool
  openDirOk : Bool
  dirFD : Nat
  openMemMaxOk : Bool
  writeOk : Bool
  closeOk : Bool
deriving DecidableEq, Repr

/-- Insert into the name → handle map (Go map assignment). -/
def groupsInsert (l : List (String × CGroup)) (k : String) (v : CGroup) :
    List (String × CGroup) :=
  (k, v) :: l.filter (fun p => p.1 != k)

/-- Embedding of `FSManager.AddGroup` (cgroup.go lines 63-95): mkdir the
leaf, open it, open `memory.max`, write `memoryTargetBytes/5` in
decimal, record the handle; on failure after mkdir, best-effort remove
the directory. Returns the effect trace and the directory descriptor. -/
def FSManager.AddGroup (m : FSManager) (orc : FSOracle) (name : String) :
    FSManager × List FSEffect × Except String Nat :=
  let dirPath := filepathJoin (filepathJoin m.rootPath m.serverCGroupName) name
  let memMaxPath := filepathJoin dirPath "memory.max"
  if !orc.mkdirOk then
    (m, [.mkdirDir dirPath], .error "failed to create cgroup directory")
  else if !orc.openDirOk then
    (m, [.mkdirDir dirPath, .openPath dirPath], .error "failed to open cgroup directory")
  else if !orc.openMemMaxOk then
    (m, [.mkdirDir dirPath, .openPath dirPath, .openPath memMaxPath, .removePath dirPath],
     .error "failed to open memory.max file")
  else if !orc.writeOk then
    (m, [.mkdirDir dirPath, .openPath dirPath, .openPath memMaxPath, .removePath dirPath],
     .error "failed to write to memory.max file")
  else
    let cg := CGroup.mk dirPath orc.dirFD (filepathJoin dirPath "cgroup.events")
    ({ m with groups := groupsInsert m.groups name cg },
     [.mkdirDir dirPath, .openPath dirPath, .openPath memMaxPath,
      .writeFile memMaxPath (toString (m.memoryTargetBytes / 5))],
     .ok orc.dirFD)

/-- Embedding of `FSManager.RemoveGroup` (cgroup.go lines 97-109): look
the handle up, close the directory handle, drop the map entry. The
function performs no read of `cgroup.events` and no directory removal. -/
def FSManager.RemoveGroup (m : FSManager) (orc : FSOracle) (name : String) :
    FSManager × List FSEffect × Except String Unit :=
  match m.groups.lookup name with
  | none => (m, [], .error ("cgroup " ++ name ++ " not found"))
  | some cg =>
    if !orc.closeOk then
      (m, [.closeDir cg.dirPath], .error "failed to close cgroup directory")
    else
      ({ m with groups := m.groups.filter (fun p => p.1 != name) },
       [.closeDir cg.dirPath], .ok ())

end cgroup

/-- C9: every successful `AddGroup(name)` records exactly one durable
write: the decimal rendering of `memoryTargetBytes / 5` into the new
leaf's `memory.max`, and the returned descriptor is the one obtained by
opening the leaf directory; the default memory target is 4 GiB. -/
theorem addGroup_writes_memory_max (m : cgroup.FSManager) (orc : cgroup.FSOracle)
    (name : String) (fd : Nat)
    (hok : (m.AddGroup orc name).2.2 = .ok fd) :
    (cgroup.FSEffect.writeFile
        (cgroup.filepathJoin
          (cgroup.filepathJoin (cgroup.filepathJoin m.rootPath m.serverCGroupName) name)
          "memory.max")
        (toString (m.memoryTargetBytes / 5)))
      ∈ (m.AddGroup orc name).2.1 ∧
    (cgroup.FSEffect.openPath
        (cgroup.filepathJoin (cgroup.filepathJoin m.rootPath m.serverCGroupName) name))
      ∈ (m.AddGroup orc name).2.1 ∧
    fd = orc.dirFD ∧
    cgroup.defaultTargetMaxMemoryBytes = 4 * cgroup.gb := by
  obtain ⟨mk, od, fdo, om, wr, cl⟩ := orc
  cases mk with
  | false => exact absurd hok (by simp [cgroup.FSManager.AddGroup])
  | true => cases od with
    | false => exact absurd hok (by simp [cgroup.FSManager.AddGroup])
    | true => cases om with
      | false => exact absurd hok (by simp [cgroup.FSManager.AddGroup])
      | true => cases wr with
        | false => exact absurd hok (by simp [cgroup.FSManager.AddGroup])
        | true =>
          simp only [cgroup.FSManager.AddGroup, Bool.not_true, Bool.false_eq_true,
            if_false, Except.ok.injEq] at hok
          refine ⟨?_, ?_, ?_, rfl⟩
          · simp [cgroup.FSManager.AddGroup]
          · simp [cgroup.FSManager.AddGroup]
          · exact hok.symm

theorem addGroup_writes_memory_max_witness :
    ((cgroup.FSManager.mk ["cpu", "memory", "io"] "/sys/fs/cgroup"
        cgroup.defaultTargetMaxMemoryBytes "jogger" []).AddGroup
      ⟨true, true, 3, true, true, true⟩ "job-1").2.2 = Except.ok 3 ∧
    (cgroup.FSEffect.writeFile "/sys/fs/cgroup/jogger/job-1/memory.max"
        (toString (cgroup.defaultTargetMaxMemoryBytes / 5)))
      ∈ ((cgroup.FSManager.mk ["cpu", "memory", "io"] "/sys/fs/cgroup"
        cgroup.defaultTargetMaxMemoryBytes "jogger" []).AddGroup
      ⟨true, true, 3, true, true, true⟩ "job-1").2.1 :=
  ⟨rfl, ((addGroup_writes_memory_max _ ⟨true, true, 3, true, true, true⟩
      "job-1" 3 rfl).1)⟩

/-- C5: `RemoveGroup` on a previously added group performs exactly one
filesystem action — closing the directory handle — with no read of the
leaf's `cgroup.events` (no wait for `populated 0`) and no unlink of the
leaf directory, contradicting the specified removal protocol. -/
theorem removeGroup_never_unlinks (m : cgroup.FSManager) (orc : cgroup.FSOracle)
    (name : String) (cg : cgroup.CGroup)
    (h : m.groups.lookup name = some cg) :
    (m.RemoveGroup orc name).2.1 = [.closeDir cg.dirPath] ∧
    (∀ p, cgroup.FSEffect.removePath p ∉ (m.RemoveGroup orc name).2.1) ∧
    (∀ p, cgroup.FSEffect.readEventsFile p ∉ (m.RemoveGroup orc name).2.1) := by
  unfold cgroup.FSManager.RemoveGroup
  rw [h]
  rcases hc : orc.closeOk with _ | _ <;>
    simp [hc]

theorem removeGroup_never_unlinks_witness :
    ((cgroup.FSManager.mk ["cpu", "memory", "io"] "/sys/fs/cgroup"
        cgroup.defaultTargetMaxMemoryBytes "jogger"
        [("job-1", cgroup.CGroup.mk "/sys/fs/cgroup/jogger/job-1" 3
            "/sys/fs/cgroup/jogger/job-1/cgroup.events")]).RemoveGroup
      ⟨true, true, 3, true, true, true⟩ "job-1").2.1
      = [.closeDir "/sys/fs/cgroup/jogger/job-1"] :=
  (removeGroup_never_unlinks _ ⟨true, true, 3, true, true, true⟩ "job-1"
    (cgroup.CGroup.mk "/sys/fs/cgroup/jogger/job-1" 3
      "/sys/fs/cgroup/jogger/job-1/cgroup.events") (by decide)).1

/- ------------------------------------------------------------------
Job and Manager (part_000)
------------------------------------------------------------------ -/

/-- The observable state of a `Job`: the `atomic.Value` status cell
(`none` until the first `Store`) and whether `markAsDone` has fired the
done-signal (`doneCtx` closed). -/
structure JobModel where
  status : Option Status
  done : Bool
deriving DecidableEq, Repr

/-- Embedding of `StartNewJob` (part_000 lines 35-44) in program order:
on spawn failure the job is marked done and `nil` is returned; on
success RUNNING is stored and the job returned. The first component is
the caller's view, the second the job object's state. (The interleaving
between this store and the reaper's store is modelled separately by
`cellRun`.) -/
def StartNewJob (spawnOk : Bool) : Except String JobModel × JobModel :=
  let j : JobModel := { status := none, done := false }
  if spawnOk then
    let j2 : JobModel := { j with status := some .RUNNING }
    (.ok j2, j2)
  else
    let j2 : JobModel := { j with done := true }
    (.error "spawn failed", j2)

/-- Embedding of `keyString` (part_000 lines 255-257). -/
def keyString (username jobID : String) : String := jobID ++ "-" ++ username

def ErrJobNotFound : String := "job not found"

/-- The `Manager` state (part_000 lines 170-178): the registry map and
the cgroup filesystem manager reference (`none` models the nil
pointer). -/
structure Manager where
  jobMap : List (String × JobModel)
  cgroupFSManager : Option cgroup.FSManager
deriving DecidableEq, Repr

/-- Embedding of `NewManager` (part_000 lines 181-186): only `jobMap`
and `shutdownCtx` are assigned; `cgroupFSManager` keeps its zero value
(nil), and no other code in the package ever assigns it. -/
def NewManager : Manager :=
  { jobMap := [], cgroupFSManager := none }

/-- Embedding of `Manager.getJob` (part_000 lines 243-253). -/
def Manager.getJob (m : Manager) (username jobID : String) : Except String JobModel :=
  match m.jobMap.lookup (keyString username jobID) with
  | some j => .ok j
  | none => .error ErrJobNotFound

/-- Embedding of `Manager.Stop` (part_000 lines 212-221): resolve the
job, trip its cancel function (no observable state here), wrap errors. -/
def Manager.StopJob (m : Manager) (username jobID : String) : Except String Unit :=
  match m.getJob username jobID with
  | .error e => .error ("stopping job " ++ jobID ++ ": " ++ e)
  | .ok _ => .ok ()

/-- Embedding of `Manager.Status` (part_000 lines 227-233): resolve the
job and read its status cell. -/
def Manager.StatusOf (m : Manager) (username jobID : String) :
    Except String (Option Status) :=
  match m.getJob username jobID with
  | .error e => .error ("getting job status: " ++ e)
  | .ok j => .ok j.status

/-- Embedding of `Manager.OutputStream` (part_000 lines 235-241):
resolve the job and hand out its stream (the job itself here). -/
def Manager.OutputStreamOf (m : Manager) (username jobID : String) :
    Except String JobModel :=
  match m.getJob username jobID with
  | .error e => .error ("streaming output: " ++ e)
  | .ok j => .ok j

/-- Calls `Manager.Start` performs, in execution order. The final
`removeGroupCall` is the deferred `scheduleCGroupCleanup` (part_000
lines 274-276), which invokes `FSManager.RemoveGroup` synchronously when
`Start` returns. -/
inductive MgrEvent where
  | addGroupCall (name : String)
  | spawnCall
  | registryInsert (key : String)
  | removeGroupCall (name : String)
deriving DecidableEq, Repr

/-- Start's result to the caller; `nilPanic` is the nil-pointer
dereference `m.cgroupFSManager.AddGroup` performs when the field was
never assigned. -/
inductive StartOutcome where
  | ok (jobID : String)
  | err (msg : String)
  | nilPanic
deriving DecidableEq, Repr

structure StartResult where
  mgr : Manager
  events : List MgrEvent
  outcome : StartOutcome
  job : Option JobModel
deriving DecidableEq, Repr

/-- Embedding of `Manager.Start` (part_000 lines 189-209). `jobID`
stands for the fresh `uuid.NewString()`; `orc` resolves the fallible
cgroup filesystem calls and `spawnOk` the `cmd.Start` call. `job` is
the `Job` object `StartNewJob` built, if any (on spawn failure it is
the discarded one). -/
def Manager.Start (m : Manager) (orc : cgroup.FSOracle) (spawnOk : Bool)
    (username jobID : String) : StartResult :=
  match m.cgroupFSManager with
  | none =>
      { mgr := m, events := [], outcome := .nilPanic, job := none }
  | some fsm =>
    let ag := fsm.AddGroup orc jobID
    match ag.2.2 with
    | .error e =>
        { mgr := { m with cgroupFSManager := some ag.1 },
          events := [.addGroupCall jobID],
          outcome := .err ("starting job: " ++ e), job := none }
    | .ok _fd =>
      match StartNewJob spawnOk with
      | (.error e, jdead) =>
          let rg := ag.1.RemoveGroup orc jobID
          { mgr := { m with cgroupFSManager := some rg.1 },
            events := [.addGroupCall jobID, .spawnCall, .removeGroupCall jobID],
            outcome := .err ("starting job: " ++ e), job := some jdead }
      | (.ok j, _) =>
          let rg := ag.1.RemoveGroup orc jobID
          { mgr := { m with cgroupFSManager := some rg.1,
                            jobMap := (keyString username jobID, j) :: m.jobMap },
            events := [.addGroupCall jobID, .spawnCall,
                       .registryInsert (keyString username jobID), .removeGroupCall jobID],
            outcome := .ok jobID, job := some j }

/-- One store into a job's status cell: `storeRunning` is the store at
the end of `StartNewJob` (part_000 line 42); `reap w` is the reaper
goroutine's `setDoneStatus` store (line 90). `start()` spawns the
reaper goroutine before `StartNewJob` performs its store, so both
orders of the two stores are real executions. -/
inductive CellEvent where
  | storeRunning
  | reap (w : WaitResult)
deriving DecidableEq, Repr

def cellStep (_c : Option Status) : CellEvent → Option Status
  | .storeRunning => some .RUNNING
  | .reap w => some (setDoneStatus w)

/-- The status cell after a sequence of stores (initially unset). -/
def cellRun (evs : List CellEvent) : Option Status :=
  evs.foldl cellStep none

/-- C4: refuted — `StartNewJob` stores RUNNING only after `start()` has
already spawned the reaper, so when the child exits immediately the
reaper's terminal store (COMPLETED) can precede the RUNNING store and
be overwritten by it: the cell changes again after holding a terminal
value, and subsequent Status reads observe RUNNING, not the final
terminal value. -/
theorem status_cell_terminal_overwritten :
    cellRun [.reap .ok] = some .COMPLETED ∧
    Status.isTerminal .COMPLETED = true ∧
    cellRun [.reap .ok, .storeRunning] = some .RUNNING ∧
    (some Status.RUNNING : Option Status) ≠ some Status.COMPLETED :=
  ⟨rfl, rfl, rfl, by decide⟩

/-- C3: refuted — the registry key `jobID ++ "-" ++ username` is not an
injective pair encoding. With a job registered by user "z" under job id
"x-y" (key "x-y-z"), user "y-z" querying job id "x" computes the same
key, so getJob resolves the foreign job and Stop, Status, and
OutputStream all succeed on it instead of returning NotFound. -/
theorem crossUser_lookup_reaches_foreign_job :
    ("y-z" : String) ≠ "z" ∧
    keyString "y-z" "x" = keyString "z" "x-y" ∧
    (Manager.mk [(keyString "z" "x-y", JobModel.mk (some .RUNNING) false)] none).getJob
      "y-z" "x" = .ok (JobModel.mk (some .RUNNING) false) ∧
    (Manager.mk [(keyString "z" "x-y", JobModel.mk (some .RUNNING) false)] none).StatusOf
      "y-z" "x" = .ok (some .RUNNING) ∧
    (Manager.mk [(keyString "z" "x-y", JobModel.mk (some .RUNNING) false)] none).StopJob
      "y-z" "x" = .ok () ∧
    (Manager.mk [(keyString "z" "x-y", JobModel.mk (some .RUNNING) false)] none).OutputStreamOf
      "y-z" "x" = .ok (JobModel.mk (some .RUNNING) false) :=
  ⟨by decide, rfl, rfl, rfl, rfl, rfl⟩

/-- C10: refuted — `NewManager` never assigns `cgroupFSManager`, the
field keeps its nil zero value, and the first `Start` on a fresh
manager faults dereferencing the nil `FSManager` inside `AddGroup`
instead of reaching it. -/
theorem newManager_start_nil_fault :
    NewManager.cgroupFSManager = none ∧
    (NewManager.Start ⟨true, true, 3, true, true, true⟩ true "alice" "job-1").outcome
      = .nilPanic :=
  ⟨rfl, rfl⟩

/-- C7: when `Start` returns an error — cgroup AddGroup failure or
spawn failure — the registry is untouched (same map, no insert event),
and any job object built on the way (the spawn-failure case) has been
marked done and is not handed to the caller, so the partial start is
invisible to Stop, Status, and OutputStream. -/
theorem start_failure_not_registered (m : Manager) (orc : cgroup.FSOracle)
    (spawnOk : Bool) (username jobID msg : String)
    (herr : (m.Start orc spawnOk username jobID).outcome = .err msg) :
    (m.Start orc spawnOk username jobID).mgr.jobMap = m.jobMap ∧
    (∀ k, MgrEvent.registryInsert k ∉ (m.Start orc spawnOk username jobID).events) ∧
    (∀ j, (m.Start orc spawnOk username jobID).job = some j → j.done = true) := by
  cases hm : m.cgroupFSManager with
  | none =>
    simp only [Manager.Start, hm] at herr
    exact absurd herr (by simp)
  | some fsm =>
    rcases hag : (fsm.AddGroup orc jobID).2.2 with e | fd
    · refine ⟨?_, ?_, ?_⟩ <;> simp [Manager.Start, hm, hag]
    · cases spawnOk with
      | true =>
        simp [Manager.Start, hm, hag, StartNewJob] at herr
      | false =>
        refine ⟨?_, ?_, ?_⟩
        · simp [Manager.Start, hm, hag, StartNewJob]
        · simp [Manager.Start, hm, hag, StartNewJob]
        · intro j hj
          have hjob : (m.Start orc false username jobID).job
              = some (JobModel.mk none true) := by
            simp [Manager.Start, hm, hag, StartNewJob]
          rw [hjob] at hj
          injection hj with hj2
          rw [← hj2]

theorem start_failure_not_registered_witness :
    ((Manager.mk [] (some (cgroup.FSManager.mk ["cpu", "memory", "io"] "/sys/fs/cgroup"
        cgroup.defaultTargetMaxMemoryBytes "jogger" []))).Start
      ⟨true, true, 3, true, true, true⟩ false "alice" "job-1").mgr.jobMap
      = (Manager.mk [] (some (cgroup.FSManager.mk ["cpu", "memory", "io"] "/sys/fs/cgroup"
        cgroup.defaultTargetMaxMemoryBytes "jogger" []))).jobMap ∧
    (∀ k, MgrEvent.registryInsert k ∉
      ((Manager.mk [] (some (cgroup.FSManager.mk ["cpu", "memory", "io"] "/sys/fs/cgroup"
        cgroup.defaultTargetMaxMemoryBytes "jogger" []))).Start
      ⟨true, true, 3, true, true, true⟩ false "alice" "job-1").events) ∧
    (∀ j, ((Manager.mk [] (some (cgroup.FSManager.mk ["cpu", "memory", "io"] "/sys/fs/cgroup"
        cgroup.defaultTargetMaxMemoryBytes "jogger" []))).Start
      ⟨true, true, 3, true, true, true⟩ false "alice" "job-1").job = some j →
      j.done = true) :=
  start_failure_not_registered _ ⟨true, true, 3, true, true, true⟩ false
    "alice" "job-1" "starting job: spawn failed" rfl

/-- C6: refuted — on a successful `Start` the deferred
`scheduleCGroupCleanup` invokes `RemoveGroup` synchronously as `Start`
returns: the event trace of `Start` itself ends with the RemoveGroup
call while the returned job's done-signal has not fired (the reaper has
not run), so teardown does not await the done-signal. -/
theorem start_removes_cgroup_before_done (m : Manager) (fsm : cgroup.FSManager)
    (orc : cgroup.FSOracle) (username jobID : String) (fd : Nat)
    (hm : m.cgroupFSManager = some fsm)
    (hag : (fsm.AddGroup orc jobID).2.2 = .ok fd) :
    (m.Start orc true username jobID).outcome = .ok jobID ∧
    (m.Start orc true username jobID).events =
      [.addGroupCall jobID, .spawnCall, .registryInsert (keyString username jobID),
       .removeGroupCall jobID] ∧
    (m.Start orc true username jobID).job = some (JobModel.mk (some .RUNNING) false) := by
  simp only [Manager.Start, hm, hag, StartNewJob]
  exact ⟨rfl, rfl, rfl⟩

theorem start_removes_cgroup_before_done_witness :
    ((Manager.mk [] (some (cgroup.FSManager.mk ["cpu", "memory", "io"] "/sys/fs/cgroup"
        cgroup.defaultTargetMaxMemoryBytes "jogger" []))).Start
      ⟨true, true, 3, true, true, true⟩ true "alice" "job-1").outcome = .ok "job-1" ∧
    ((Manager.mk [] (some (cgroup.FSManager.mk ["cpu", "memory", "io"] "/sys/fs/cgroup"
        cgroup.defaultTargetMaxMemoryBytes "jogger" []))).Start
      ⟨true, true, 3, true, true, true⟩ true "alice" "job-1").events =
      [.addGroupCall "job-1", .spawnCall, .registryInsert (keyString "alice" "job-1"),
       .removeGroupCall "job-1"] ∧
    ((Manager.mk [] (some (cgroup.FSManager.mk ["cpu", "memory", "io"] "/sys/fs/cgroup"
        cgroup.defaultTargetMaxMemoryBytes "jogger" []))).Start
      ⟨true, true, 3, true, true, true⟩ true "alice" "job-1").job
      = some (JobModel.mk (some .RUNNING) false) :=
  start_removes_cgroup_before_done _ _ ⟨true, true, 3, true, true, true⟩
    "alice" "job-1" 3 rfl rfl

end Jogger
